import Mathlib

/-!
Verification of the DnDbug story-generation backend: a shallow embedding of
the session-context lock/version/merge state machine from
`backend/services/lock_service.py`, `backend/services/context_service.py`,
`backend/services/storage_service.py` and `backend/routers/context.py`,
together with theorems settling the specification claims about it.

Python dictionaries holding heterogeneous JSON data are embedded as the
inductive `Value`; dictionaries with a fixed set of tracked keys
(session contexts, scene details, macro chains) are embedded as structures
whose optional fields model possibly-absent keys.  Wall-clock timestamps
(`datetime.now().isoformat()`) are threaded through as an explicit `now`
argument.  Functions that can raise return `Except String`.
-/

namespace DnDbug

/-- JSON-like Python values (None, bool, int, str, list, dict). -/
inductive Value where
  | null : Value
  | bool : Bool → Value
  | int : Int → Value
  | str : String → Value
  | list : List Value → Value
  | obj : List (String × Value) → Value

/-- Python truthiness of a value (`bool(v)`). -/
def Value.isTruthy : Value → Bool
  | .null => false
  | .bool b => b
  | .int n => n != 0
  | .str s => s != ""
  | .list xs => !xs.isEmpty
  | .obj kvs => !kvs.isEmpty

/-- Python `isinstance(v, list)`. -/
def Value.isList : Value → Bool
  | .list _ => true
  | _ => false

/-- Python `isinstance(v, dict)`. -/
def Value.isObj : Value → Bool
  | .obj _ => true
  | _ => false

/-- Python `v is None`. -/
def Value.isNull : Value → Bool
  | .null => true
  | _ => false

/-- First-match association-list lookup: Python `d[k]` / `d.get(k)` presence. -/
def lookupA {α : Type} (k : String) : List (String × α) → Option α
  | [] => none
  | (k', v) :: rest => if k' == k then some v else lookupA k rest

/-- Python `d[k] = v`: replace the first binding in place, else append at the end
(Python dicts keep insertion order and assignment keeps an existing key's position). -/
def setA {α : Type} (k : String) (v : α) : List (String × α) → List (String × α)
  | [] => [(k, v)]
  | (k', v') :: rest => if k' == k then (k, v) :: rest else (k', v') :: setA k v rest

/-- Python `{**a, **b}`: start from `a`, then assign each binding of `b` in order. -/
def objUpdate (a b : List (String × Value)) : List (String × Value) :=
  b.foldl (fun acc kv => setA kv.1 kv.2 acc) a

/-- Python `kvs.get(k, d)`. -/
def objGetD (kvs : List (String × Value)) (k : String) (d : Value) : Value :=
  (lookupA k kvs).getD d

/-- Python `v or []`. -/
def orElseEmptyList (v : Value) : Value :=
  if v.isTruthy then v else .list []

/-- Python `a + b` on values, defined only for two lists (otherwise `TypeError`). -/
def pyListConcat (a b : Value) : Except String Value :=
  match a, b with
  | .list xs, .list ys => .ok (.list (xs ++ ys))
  | _, _ => .error "TypeError: can only concatenate list to list"

/-- One field of the `world_seeds` merge:
`(existing_seeds.get(k, []) or []) + (new_data.get(k, []) or [])`. -/
def wsField (ekvs nkvs : List (String × Value)) (k : String) : Except String Value :=
  pyListConcat (orElseEmptyList (objGetD ekvs k (.list [])))
    (orElseEmptyList (objGetD nkvs k (.list [])))

/-- Python `pat in s` on strings (substring test). -/
def strContains (s pat : String) : Bool :=
  (s.splitOn pat).length > 1

/-- Python `k in v`: key membership for dicts, element equality for lists
(a string key only equals string elements), substring for strings,
`TypeError` otherwise. -/
def pyIn (k : String) : Value → Except String Bool
  | .obj kvs => .ok (lookupA k kvs).isSome
  | .list xs => .ok (xs.any fun v => match v with | .str s => s == k | _ => false)
  | .str s => .ok (strContains s k)
  | _ => .error "TypeError: argument is not iterable"

/-- Python `v[k]` with a string key: dict lookup (`KeyError` when absent),
`TypeError` on any non-dict. -/
def pySubscript (v : Value) (k : String) : Except String Value :=
  match v with
  | .obj kvs =>
    match lookupA k kvs with
    | some x => .ok x
    | none => .error "KeyError"
  | _ => .error "TypeError: value is not subscriptable"

/-- Python `{**v}` source operand: must be a mapping. -/
def asMapping (v : Value) : Except String (List (String × Value)) :=
  match v with
  | .obj kvs => .ok kvs
  | _ => .error "TypeError: argument is not a mapping"

/-- The function `merge_context_data(existing, new_data, block_type)` from
`backend/services/context_service.py` (lines 63-127).  `existing` is the
current block (Python `None` when absent, hence `Option`); the dict branches
raise `TypeError`/`AttributeError` exactly where the Python would.
In value semantics a shallow copy `{**new_data}` equals `new_data` itself. -/
def merge_context_data (existing : Option Value) (new_data : Value)
    (block_type : String) : Except String Value :=
  if block_type == "blueprint" then
    -- Blueprint always has highest priority - replace completely
    .ok (match new_data with | .obj kvs => .obj kvs | v => v)
  else if block_type == "player_hooks" then
    -- Player hooks are additive - append to existing array
    let existing_hooks := match existing with | some (.list xs) => xs | _ => []
    match new_data with
    | .list ys => .ok (.list (existing_hooks ++ ys))
    | v => .ok (.list (existing_hooks ++ [v]))
  else if block_type == "world_seeds" then
    -- World seeds merge arrays additively
    let existing_seeds := match existing with | some (.obj kvs) => kvs | _ => []
    match new_data with
    | .obj nkvs => do
      let f ← wsField existing_seeds nkvs "factions"
      let l ← wsField existing_seeds nkvs "locations"
      let c ← wsField existing_seeds nkvs "constraints"
      .ok (.obj [("factions", f), ("locations", l), ("constraints", c)])
    | _ => .error "AttributeError: object has no attribute get"
  else if block_type == "style_prefs" then
    -- Style preferences merge, with doNots being additive
    let existing_prefs := match existing with | some (.obj kvs) => kvs | _ => []
    match new_data with
    | .obj nkvs => do
      let doNots ← pyListConcat (orElseEmptyList (objGetD existing_prefs "doNots" (.list [])))
        (orElseEmptyList (objGetD nkvs "doNots" (.list [])))
      .ok (.obj (setA "doNots" doNots (objUpdate existing_prefs nkvs)))
    | _ => .error "TypeError: argument is not a mapping"
  else if block_type == "custom" then
    -- Custom data merges deeply, preserving existing macro chain data
    match new_data with
    | .obj nkvs =>
      let e := match existing with | some (.obj kvs) => kvs | _ => []
      let merged := objUpdate e nkvs
      match existing with
      | some ev =>
        if (lookupA "macroChain" nkvs).isSome && ev.isTruthy then do
          let hasKey ← pyIn "macroChain" ev
          if hasKey then do
            let em ← pySubscript ev "macroChain"
            let nm := (lookupA "macroChain" nkvs).getD .null
            let emk ← asMapping em
            let nmk ← asMapping nm
            .ok (.obj (setA "macroChain" (.obj (objUpdate emk nmk)) merged))
          else .ok (.obj merged)
        else .ok (.obj merged)
      | none => .ok (.obj merged)
    | _ => .error "TypeError: argument is not a mapping"
  else if block_type == "background" then
    -- Background always has highest priority - replace completely
    .ok (match new_data with | .obj kvs => .obj kvs | v => v)
  else if block_type == "story_facts" then
    -- Story facts from scene details are additive
    let existing_facts := match existing with | some (.list xs) => xs | _ => []
    match new_data with
    | .list ys => .ok (.list (existing_facts ++ ys))
    | v => .ok (.list (existing_facts ++ [v]))
  else if block_type == "story_concept" then
    -- Story concept always has highest priority - replace completely
    .ok (match new_data with | .obj kvs => .obj kvs | v => v)
  else if block_type == "characters" then
    -- Characters always has highest priority - replace completely
    .ok (match new_data with | .obj kvs => .obj kvs | v => v)
  else
    .ok new_data

/-- Python `str.strip()` whitespace set (space, tab, newline, carriage return,
vertical tab, form feed). -/
def pyIsSpace (c : Char) : Bool :=
  c == ' ' || c == '\t' || c == '\n' || c == '\r' || c == Char.ofNat 11 || c == Char.ofNat 12

/-- Python `s.strip()` over a string modelled as a character list. -/
def pyStrip (s : List Char) : List Char :=
  ((s.dropWhile pyIsSpace).reverse.dropWhile pyIsSpace).reverse

/-- Python slice `s[:i]`, including the negative-index case
(`s[:-k]` keeps all but the last `k` characters). -/
def pySliceTo (s : List Char) (i : Int) : List Char :=
  if 0 ≤ i then s.take i.toNat else s.take (s.length - (-i).toNat)

/-- The function `summarize_content(content, max_length)` from
`backend/services/context_service.py` (lines 130-139), over strings modelled
as character lists (so `content` is always a `str` and the
`isinstance(content, str)` guard is always true). -/
def summarize_content (content : List Char) (max_length : Nat) : List Char :=
  if content.length ≤ max_length then content
  else
    let sentences := ((content.splitOn '.').map pyStrip).filter fun s => !s.isEmpty
    let summary := pyStrip (List.intercalate ['.', ' '] (sentences.take 2))
    if max_length < summary.length then
      pySliceTo summary ((max_length : Int) - 3) ++ ['.', '.', '.']
    else summary

/-- A scene detail entry of `session_context['sceneDetails']`, with the keys
the lock service reads or writes; `Option` fields model possibly-absent keys
(all reads in the source go through `.get`). -/
structure SceneDetail where
  sceneId : Option String
  status : Option String
  sequence : Option Int
  version : Option Nat
  lastUpdatedAt : Option String
  lockedAt : Option String
deriving DecidableEq

/-- A macro chain dict, with the keys that `lock_chain` reads or writes and
that the `blocks.custom.macroChain` snapshot copies.  `chainId` is required
(the snapshot indexes it unconditionally); everything else is read via `.get`. -/
structure MacroChain where
  chainId : String
  scenes : Option (List Value)
  status : Option String
  version : Option Nat
  lastUpdatedAt : Option String
  meta : Option Value
  createdAt : Option String
  updatedAt : Option String
  lockedAt : Option String

/-- The dict `session_context['meta']`.  The counters are read only via
`.get(_, 0) or 0`, so an absent or empty meta dict is modelled by zeros. -/
structure Meta where
  backgroundV : Nat
  charactersV : Nat
  macroSnapshotV : Nat
  updatedAt : Option String
deriving DecidableEq

/-- A session context.  `blocks` holds the generic JSON blocks the append
endpoint merges into; the `blocks['custom']['macroChain']` slot, which
`lock_chain` reads and overwrites as a structured chain snapshot, is modelled
by the dedicated field `customMacroChain`.  `version` is read only via
`.get('version', 0) or 0`, so an absent counter is modelled by `0`.
Absent `locks` / `macroChains` / `sceneDetails` dicts are modelled by `[]`
(the source initialises them to `{}` before writing and treats an absent and
an empty dict alike on reads). -/
structure SessionContext where
  sessionId : String
  blocks : List (String × Value)
  customMacroChain : Option MacroChain
  locks : List (String × Bool)
  meta : Meta
  version : Nat
  macroChains : List (String × MacroChain)
  sceneDetails : List (String × SceneDetail)
  createdAt : String
  updatedAt : String

/-- Python `(o.get(k, d) or d)` for a numeric field: `None`, an absent key and
`0` all fall back to the default. -/
def getNatOr (o : Option Nat) (d : Nat) : Nat :=
  if o.getD d == 0 then d else o.getD d

/-- Constructor discriminator for `Except` results. -/
def exceptOk {ε α : Type} : Except ε α → Bool
  | .ok _ => true
  | .error _ => false

namespace LockService

/-- The list `VALID_BLOCK_TYPES` from `backend/services/lock_service.py` (lines 14-23). -/
def VALID_BLOCK_TYPES : List String :=
  ["blueprint", "player_hooks", "world_seeds", "style_prefs", "custom",
   "background", "story_concept", "characters"]

/-- The function `lock_context_block(session_id, block_type, locked)` from
`backend/services/lock_service.py` (lines 26-64): the loaded (or freshly
created) session context is passed in, the saved context is returned.
The session id only feeds log lines and is omitted. -/
def lock_context_block (now : String) (session_context : SessionContext)
    (block_type : String) (locked : Bool) : Except String SessionContext :=
  if !(VALID_BLOCK_TYPES.contains block_type) then
    .error ("Invalid blockType: " ++ block_type ++ ". Must be one of: " ++
      String.intercalate ", " VALID_BLOCK_TYPES)
  else
    -- Update lock status
    let sc := { session_context with
      locks := setA block_type locked session_context.locks,
      version := session_context.version + 1,
      updatedAt := now }
    -- Bump specific version when locking (to track changes for staleness detection)
    let sc :=
      if locked then
        if block_type == "background" then
          { sc with meta := { sc.meta with backgroundV := sc.meta.backgroundV + 1 } }
        else if block_type == "characters" then
          { sc with meta := { sc.meta with charactersV := sc.meta.charactersV + 1 } }
        else sc
      else sc
    .ok sc

/-- The scene-detail update performed by `lock_chain` on unlock for every
scene detail with a truthy `sceneId`. -/
def regenSceneDetail (now : String) (d : SceneDetail) : SceneDetail :=
  { d with
    status := some "NeedsRegen",
    lastUpdatedAt := some now,
    version := some (getNatOr d.version 0 + 1) }

/-- The guard `scene_detail and scene_detail.get('sceneId')` of the chain
unlock cascade (a missing or empty `sceneId` is falsy). -/
def truthySceneId (d : SceneDetail) : Bool :=
  match d.sceneId with
  | some s => s != ""
  | none => false

/-- The chain-unlock cascade loop over `session_context['sceneDetails']`:
marks every entry with a truthy `sceneId` as `NeedsRegen` and collects the
affected scene ids in iteration order. -/
def chainCascade (now : String) :
    List (String × SceneDetail) → List (String × SceneDetail) × List String
  | [] => ([], [])
  | (k, d) :: rest =>
    if truthySceneId d then
      ((k, regenSceneDetail now d) :: (chainCascade now rest).1,
        k :: (chainCascade now rest).2)
    else
      ((k, d) :: (chainCascade now rest).1, (chainCascade now rest).2)

/-- The `context.blocks.custom.macroChain` snapshot built by `lock_chain`
(lines 131-141): the named keys of the updated chain, with `scenes`
defaulting to `[]`. -/
def chainSnapshot (u : MacroChain) : MacroChain :=
  { chainId := u.chainId,
    scenes := some (u.scenes.getD []),
    status := u.status,
    version := u.version,
    lastUpdatedAt := u.lastUpdatedAt,
    meta := u.meta,
    createdAt := u.createdAt,
    updatedAt := u.updatedAt,
    lockedAt := u.lockedAt }

structure LockChainResult where
  chain : MacroChain
  sessionContext : SessionContext
  affectedScenes : List String

/-- The function `lock_chain(session_id, chain_id, locked)` from
`backend/services/lock_service.py` (lines 67-171).  `session_context` is the
result of `load_session_context` (`none` = not found) and `legacy_chain` the
result of the old-storage `load_chain` lookup used for migration. -/
def lock_chain (now : String) (session_context : Option SessionContext)
    (legacy_chain : Option MacroChain) (chain_id : String) (locked : Bool) :
    Except String LockChainResult :=
  match session_context with
  | none => .error "Session not found"
  | some sc0 =>
    -- Find the macro chain - try session context first, then blocks.custom.macroChain,
    -- then the old storage system (migration)
    let migrated : Option MacroChain → Option (MacroChain × SessionContext) := fun legacy =>
      match legacy with
      | some lc => some (lc, { sc0 with
          macroChains := setA chain_id lc sc0.macroChains, updatedAt := now })
      | none => none
    let found : Option (MacroChain × SessionContext) :=
      match lookupA chain_id sc0.macroChains with
      | some mc => some (mc, sc0)
      | none =>
        match sc0.customMacroChain with
        | some cmc =>
          if cmc.chainId == chain_id then some (cmc, sc0) else migrated legacy_chain
        | none => migrated legacy_chain
    match found with
    | none => .error "Macro chain not found. Generate a chain first."
    | some (macro_chain, sc) =>
      -- Validate current state
      let current_status := macro_chain.status.getD "Draft"
      if locked && current_status == "Locked" then
        .error "Macro chain is already locked"
      else if !locked && current_status != "Locked" then
        .error "Macro chain is not locked"
      else
        -- Update chain status
        let updated_chain : MacroChain :=
          { macro_chain with
            status := some (if locked then "Locked" else "Edited"),
            version := some (getNatOr macro_chain.version 1 + 1),
            lastUpdatedAt := some now,
            lockedAt := if locked then some now else none }
        -- Store in session context; keep UI in sync via blocks.custom.macroChain
        let sc := { sc with
          macroChains := setA chain_id updated_chain sc.macroChains,
          customMacroChain := some (chainSnapshot updated_chain) }
        -- If unlocking, mark ALL scene details as NeedsRegen (they depend on the chain)
        let cascaded :=
          if !locked then chainCascade now sc.sceneDetails else (sc.sceneDetails, [])
        let sc := { sc with sceneDetails := cascaded.1, updatedAt := now }
        .ok { chain := updated_chain, sessionContext := sc,
              affectedScenes := if !locked then cascaded.2 else [] }

/-- The condition of the scene-unlock cascade (line 209):
`detail.get('sequence', 0) > current_sequence and detail.get('status') == 'Locked'`. -/
def sceneCascadeHit (current_sequence : Int) (d : SceneDetail) : Bool :=
  d.sequence.getD 0 > current_sequence && d.status == some "Locked"

/-- The scene-unlock cascade loop (lines 206-211): every entry of the updated
`sceneDetails` map with a strictly later sequence and status `Locked` gets
status `NeedsRegen` (only the status key is written). -/
def sceneCascade (current_sequence : Int) :
    List (String × SceneDetail) → List (String × SceneDetail) × List String
  | [] => ([], [])
  | (k, d) :: rest =>
    if sceneCascadeHit current_sequence d then
      ((k, { d with status := some "NeedsRegen" }) :: (sceneCascade current_sequence rest).1,
        k :: (sceneCascade current_sequence rest).2)
    else
      ((k, d) :: (sceneCascade current_sequence rest).1, (sceneCascade current_sequence rest).2)

structure LockSceneResult where
  sceneDetail : SceneDetail
  affectedScenes : List String
  sessionContext : SessionContext

/-- The function `lock_scene(session_id, scene_id, locked)` from
`backend/services/lock_service.py` (lines 174-228). -/
def lock_scene (now : String) (session_context : SessionContext)
    (scene_id : String) (locked : Bool) : Except String LockSceneResult :=
  -- Find the scene detail
  match lookupA scene_id session_context.sceneDetails with
  | none => .error "Scene detail not found"
  | some scene_detail =>
    let current_status := scene_detail.status.getD "Draft"
    -- Validate current state
    if locked && current_status == "Locked" then
      .error "Scene is already locked"
    else if !locked && current_status != "Locked" then
      .error "Scene is not locked"
    else
      -- Update scene status
      let updated_detail : SceneDetail :=
        { scene_detail with
          status := some (if locked then "Locked" else "NeedsRegen"),
          version := some (getNatOr scene_detail.version 1 + 1),
          lastUpdatedAt := some now,
          lockedAt := if locked then some now else scene_detail.lockedAt }
      let details := setA scene_id updated_detail session_context.sceneDetails
      -- If unlocking, mark later scenes as NeedsRegen
      let cascaded :=
        if !locked then sceneCascade (scene_detail.sequence.getD 0) details
        else (details, [])
      let sc := { session_context with sceneDetails := cascaded.1, updatedAt := now }
      .ok { sceneDetail := updated_detail, affectedScenes := cascaded.2,
            sessionContext := sc }

end LockService

namespace StorageService

/-- The wait loop of `save_session_context`
(`while lock_key in _session_locks and attempts < 10: sleep(0.1); attempts += 1`):
`held k` tells whether the session's advisory lock is still held after `k`
100ms sleeps, `fuel` is the remaining allowed attempts (10 at entry, so the
loop condition `attempts < 10` is `fuel > 0`).  Returns the final attempt
counter. -/
def waitLoop (held : Nat → Bool) (attempts fuel : Nat) : Nat :=
  match fuel with
  | 0 => attempts
  | f + 1 => if held attempts then waitLoop held (attempts + 1) f else attempts

/-- The function `save_session_context(session_id, context)` from
`backend/services/storage_service.py` (lines 131-175), modelled on the stored
map of contexts (the parsed contents of `context.json`); the advisory
per-session mutex `_session_locks` is visible through `held`.  If the lock is
held at the initial check the writer polls (up to 10 attempts of 100ms) and
raises a save-timeout error if the lock is still held, otherwise it writes
`{**context, 'updatedAt': now}` under the session id. -/
def save_session_context (held : Nat → Bool) (now session_id : String)
    (context : SessionContext) (all_contexts : List (String × SessionContext)) :
    Except String (List (String × SessionContext)) :=
  if held 0 then
    -- Wait for lock to be released
    let attempts := waitLoop held 0 10
    if held attempts then
      .error ("Session context save timeout for " ++ session_id)
    else
      .ok (setA session_id { context with updatedAt := now } all_contexts)
  else
    .ok (setA session_id { context with updatedAt := now } all_contexts)

end StorageService

namespace ContextRouter

/-- The list `VALID_BLOCK_TYPES` from `backend/routers/context.py` (lines 23-26). -/
def VALID_BLOCK_TYPES : List String :=
  ["blueprint", "player_hooks", "world_seeds", "style_prefs",
   "custom", "story_facts", "background", "story_concept", "characters"]

/-- The endpoint `POST /api/context/append` (`append_context`, `backend/routers/context.py`
lines 36-89): validation, per-type merge, version bump and the
background/characters meta counters.  The loaded context is passed in and the
saved context returned; an HTTP 400 or a merge exception is an `error`. -/
def append_context (now sessionId blockType : String) (data : Value)
    (session_context : SessionContext) : Except String SessionContext :=
  if sessionId == "" || blockType == "" || data.isNull then
    .error "sessionId, blockType, and data are required"
  else if !(VALID_BLOCK_TYPES.contains blockType) then
    .error ("Invalid blockType. Must be one of: " ++
      String.intercalate ", " VALID_BLOCK_TYPES)
  else do
    let existing_block := lookupA blockType session_context.blocks
    -- Merge the new data with existing data
    let merged_data ← merge_context_data existing_block data blockType
    -- Update the session context
    let sc := { session_context with
      blocks := setA blockType merged_data session_context.blocks,
      version := session_context.version + 1,
      updatedAt := now }
    -- Bump version numbers for specific block types
    let sc :=
      if blockType == "background" then
        { sc with meta := { sc.meta with
            backgroundV := sc.meta.backgroundV + 1, updatedAt := some now } }
      else if blockType == "characters" then
        { sc with meta := { sc.meta with
            charactersV := sc.meta.charactersV + 1, updatedAt := some now } }
      else sc
    .ok sc

/-- The endpoint `POST /api/context/clear` (`clear_context`, `backend/routers/context.py`
lines 155-174): empties the blocks and resets the version counter to 0. -/
def clear_context (now sessionId : String) (session_context : SessionContext) :
    Except String SessionContext :=
  if sessionId == "" then
    .error "sessionId is required"
  else
    .ok { session_context with blocks := [], version := 0, updatedAt := now }

end ContextRouter

/-! Helper lemmas about the association-list operations and the loops. -/

theorem lookupA_setA_self {α : Type} (k : String) (v : α) (l : List (String × α)) :
    lookupA k (setA k v l) = some v := by
  induction l with
  | nil => simp [setA, lookupA]
  | cons p rest ih =>
    obtain ⟨k', v'⟩ := p
    by_cases h : k' = k <;> simp [setA, lookupA, h, ih]

theorem lookupA_setA_ne {α : Type} {k k' : String} (h : k' ≠ k) (v : α)
    (l : List (String × α)) : lookupA k' (setA k v l) = lookupA k' l := by
  induction l with
  | nil => simp [setA, lookupA, Ne.symm h]
  | cons p rest ih =>
    obtain ⟨k'', v''⟩ := p
    by_cases h2 : k'' = k
    · subst h2
      simp [setA, lookupA, Ne.symm h]
    · simp [setA, lookupA, h2, ih]

theorem chainCascade_fst_lookup (now : String) (k : String)
    (l : List (String × SceneDetail)) :
    lookupA k (LockService.chainCascade now l).1 =
      (lookupA k l).map fun d =>
        if LockService.truthySceneId d then LockService.regenSceneDetail now d else d := by
  induction l with
  | nil => simp [LockService.chainCascade, lookupA]
  | cons p rest ih =>
    obtain ⟨k', d⟩ := p
    by_cases hk : k' = k <;> by_cases ht : LockService.truthySceneId d <;>
      simp [LockService.chainCascade, lookupA, hk, ht, ih]

theorem chainCascade_snd (now : String) (l : List (String × SceneDetail)) :
    (LockService.chainCascade now l).2 =
      (l.filter fun p => LockService.truthySceneId p.2).map Prod.fst := by
  induction l with
  | nil => simp [LockService.chainCascade]
  | cons p rest ih =>
    obtain ⟨k', d⟩ := p
    by_cases ht : LockService.truthySceneId d <;>
      simp [LockService.chainCascade, ht, ih]

theorem sceneCascade_fst_lookup (seq : Int) (k : String)
    (l : List (String × SceneDetail)) :
    lookupA k (LockService.sceneCascade seq l).1 =
      (lookupA k l).map fun d =>
        if LockService.sceneCascadeHit seq d then { d with status := some "NeedsRegen" }
        else d := by
  induction l with
  | nil => simp [LockService.sceneCascade, lookupA]
  | cons p rest ih =>
    obtain ⟨k', d⟩ := p
    by_cases hk : k' = k <;> by_cases ht : LockService.sceneCascadeHit seq d <;>
      simp [LockService.sceneCascade, lookupA, hk, ht, ih]

theorem sceneCascade_snd (seq : Int) (l : List (String × SceneDetail)) :
    (LockService.sceneCascade seq l).2 =
      (l.filter fun p => LockService.sceneCascadeHit seq p.2).map Prod.fst := by
  induction l with
  | nil => simp [LockService.sceneCascade]
  | cons p rest ih =>
    obtain ⟨k', d⟩ := p
    by_cases ht : LockService.sceneCascadeHit seq d <;>
      simp [LockService.sceneCascade, ht, ih]

theorem waitLoop_le (held : Nat → Bool) :
    ∀ fuel a, StorageService.waitLoop held a fuel ≤ a + fuel := by
  intro fuel
  induction fuel with
  | zero => intro a; simp [StorageService.waitLoop]
  | succ f ih =>
    intro a
    by_cases h : held a = true
    · have := ih (a + 1)
      simp only [StorageService.waitLoop, h, if_true]
      omega
    · simp only [Bool.not_eq_true] at h
      simp [StorageService.waitLoop, h]

theorem waitLoop_all_held (held : Nat → Bool) :
    ∀ fuel a, held (StorageService.waitLoop held a fuel) = true →
      ∀ k, a ≤ k → k ≤ a + fuel → held k = true := by
  intro fuel
  induction fuel with
  | zero =>
    intro a h k hk1 hk2
    have hka : k = a := by omega
    simpa [hka] using h
  | succ f ih =>
    intro a h k hk1 hk2
    by_cases hha : held a = true
    · rcases Nat.eq_or_lt_of_le hk1 with rfl | hlt
      · exact hha
      · simp only [StorageService.waitLoop, hha, if_true] at h
        exact ih (a + 1) h k (by omega) (by omega)
    · simp only [Bool.not_eq_true] at hha
      simp [StorageService.waitLoop, hha] at h

/-! Claim theorems. -/

/-- Claim C4: for block types `blueprint`, `background`, `story_concept` and
`characters`, `merge_context_data(existing, new_data, block_type)` performs a
full replace: the result does not depend on the existing value and equals the
new data (in value semantics the shallow copy `{**new_data}` taken when the
new data is a dict equals `new_data`). -/
theorem claim_C4 : ∀ (e e' : Option Value) (n : Value),
    (merge_context_data e n "blueprint" = merge_context_data e' n "blueprint" ∧
      merge_context_data e n "blueprint" = .ok n) ∧
    (merge_context_data e n "background" = merge_context_data e' n "background" ∧
      merge_context_data e n "background" = .ok n) ∧
    (merge_context_data e n "story_concept" = merge_context_data e' n "story_concept" ∧
      merge_context_data e n "story_concept" = .ok n) ∧
    (merge_context_data e n "characters" = merge_context_data e' n "characters" ∧
      merge_context_data e n "characters" = .ok n) := by
  intro e e' n
  refine ⟨⟨?_, ?_⟩, ⟨?_, ?_⟩, ⟨?_, ?_⟩, ⟨?_, ?_⟩⟩ <;> cases n <;> rfl

/-- Claim C9: `story_facts` is a valid block type for the append endpoint
(router list) but not for the lock service, whose `lock_context_block`
rejects it with the invalid-blockType error; every lockable block type is
appendable, so the lockable set is strictly smaller. -/
theorem claim_C9 :
    ContextRouter.VALID_BLOCK_TYPES.contains "story_facts" = true ∧
    LockService.VALID_BLOCK_TYPES.contains "story_facts" = false ∧
    (∀ (now : String) (sc : SessionContext) (locked : Bool),
      LockService.lock_context_block now sc "story_facts" locked =
        .error ("Invalid blockType: story_facts. Must be one of: " ++
          String.intercalate ", " LockService.VALID_BLOCK_TYPES)) ∧
    (LockService.VALID_BLOCK_TYPES.all fun t =>
      ContextRouter.VALID_BLOCK_TYPES.contains t) = true :=
  ⟨rfl, rfl, fun _ _ _ => rfl, rfl⟩

theorem summarize_tail_length (summary : List Char) (ml : Nat) (h : 3 ≤ ml) :
    (if ml < summary.length then pySliceTo summary ((ml : Int) - 3) ++ ['.', '.', '.']
     else summary).length ≤ ml := by
  by_cases hlen : ml < summary.length
  · simp only [hlen, if_true, pySliceTo]
    have h3 : (0 : Int) ≤ (ml : Int) - 3 := by omega
    simp only [h3, if_true, List.length_append, List.length_take]
    have ht : ((ml : Int) - 3).toNat = ml - 3 := by omega
    rw [ht]
    simp only [List.length_cons, List.length_nil]
    omega
  · simp only [hlen, if_false]
    omega

/-- Claim C10: for every string content and every `max_length >= 3`,
`summarize_content(content, max_length)` returns a string of length at most
`max_length`, and returns the content itself unchanged whenever
`len(content) <= max_length`. -/
theorem claim_C10 (content : List Char) (max_length : Nat) (h : 3 ≤ max_length) :
    (summarize_content content max_length).length ≤ max_length ∧
    (content.length ≤ max_length → summarize_content content max_length = content) := by
  constructor
  · unfold summarize_content
    by_cases hc : content.length ≤ max_length
    · simp [hc]
    · simp only [hc, if_false]
      exact summarize_tail_length _ _ h
  · intro hcc
    unfold summarize_content
    simp [hcc]

/-- A session context whose `background` block is already locked (and which
also holds a locked chain `ch1`, a draft chain `ch2`, a locked scene `s1` and
a draft scene `s2`, exercising every validation of the lock service). -/
def c1Ctx : SessionContext :=
  { sessionId := "sess", blocks := [], customMacroChain := none,
    locks := [("background", true)], meta := ⟨0, 0, 0, none⟩, version := 3,
    macroChains :=
      [("ch1", ⟨"ch1", none, some "Locked", some 2, none, none, none, none, some "t0"⟩),
       ("ch2", ⟨"ch2", none, some "Draft", some 1, none, none, none, none, none⟩)],
    sceneDetails :=
      [("s1", ⟨some "s1", some "Locked", some 1, some 1, none, none⟩),
       ("s2", ⟨some "s2", some "Draft", some 2, some 1, none, none⟩)],
    createdAt := "t0", updatedAt := "t0" }

/-- Claim C1 counterexample: `lock_context_block` performs no
already-locked/not-locked validation at all.  In `c1Ctx` the `background`
block is already locked (`locks['background'] = true`), yet locking it again
succeeds instead of raising; symmetrically, unlocking the never-locked
`characters` block also succeeds. -/
theorem claim_C1_counterexample :
    lookupA "background" c1Ctx.locks = some true ∧
    exceptOk (LockService.lock_context_block "t1" c1Ctx "background" true) = true ∧
    lookupA "characters" c1Ctx.locks = none ∧
    exceptOk (LockService.lock_context_block "t1" c1Ctx "characters" false) = true :=
  ⟨rfl, rfl, rfl, rfl⟩

/-- Claim C1 as amended: `lock_chain` and `lock_scene` do raise when locking
an already-locked target or unlocking a not-locked one, but
`lock_context_block` performs no such check and succeeds for every valid
block type regardless of the current lock state. -/
theorem claim_C1 :
    (∀ (now : String) (sc : SessionContext) (legacy : Option MacroChain)
        (cid : String) (mc : MacroChain),
      lookupA cid sc.macroChains = some mc →
      (mc.status.getD "Draft" = "Locked" →
        LockService.lock_chain now (some sc) legacy cid true =
          .error "Macro chain is already locked") ∧
      (mc.status.getD "Draft" ≠ "Locked" →
        LockService.lock_chain now (some sc) legacy cid false =
          .error "Macro chain is not locked")) ∧
    (∀ (now : String) (sc : SessionContext) (sid : String) (d : SceneDetail),
      lookupA sid sc.sceneDetails = some d →
      (d.status.getD "Draft" = "Locked" →
        LockService.lock_scene now sc sid true = .error "Scene is already locked") ∧
      (d.status.getD "Draft" ≠ "Locked" →
        LockService.lock_scene now sc sid false = .error "Scene is not locked")) ∧
    (∀ (now : String) (sc : SessionContext) (bt : String) (locked : Bool),
      LockService.VALID_BLOCK_TYPES.contains bt = true →
      exceptOk (LockService.lock_context_block now sc bt locked) = true) := by
  refine ⟨?_, ?_, ?_⟩
  · intro now sc legacy cid mc hmc
    constructor
    · intro hst
      simp [LockService.lock_chain, hmc, hst]
    · intro hst
      simp [LockService.lock_chain, hmc, hst]
  · intro now sc sid d hd
    constructor
    · intro hst
      simp [LockService.lock_scene, hd, hst]
    · intro hst
      simp [LockService.lock_scene, hd, hst]
  · intro now sc bt locked hv
    have hmem : bt ∈ LockService.VALID_BLOCK_TYPES := by simpa using hv
    simp [LockService.lock_context_block, hmem, exceptOk]

theorem claim_C1_witness :
    LockService.lock_chain "t1" (some c1Ctx) none "ch1" true =
      .error "Macro chain is already locked" ∧
    LockService.lock_chain "t1" (some c1Ctx) none "ch2" false =
      .error "Macro chain is not locked" ∧
    LockService.lock_scene "t1" c1Ctx "s1" true = .error "Scene is already locked" ∧
    LockService.lock_scene "t1" c1Ctx "s2" false = .error "Scene is not locked" ∧
    exceptOk (LockService.lock_context_block "t1" c1Ctx "blueprint" true) = true :=
  ⟨(claim_C1.1 "t1" c1Ctx none "ch1"
      ⟨"ch1", none, some "Locked", some 2, none, none, none, none, some "t0"⟩ rfl).1 rfl,
   (claim_C1.1 "t1" c1Ctx none "ch2"
      ⟨"ch2", none, some "Draft", some 1, none, none, none, none, none⟩ rfl).2 (by decide),
   (claim_C1.2.1 "t1" c1Ctx "s1"
      ⟨some "s1", some "Locked", some 1, some 1, none, none⟩ rfl).1 rfl,
   (claim_C1.2.1 "t1" c1Ctx "s2"
      ⟨some "s2", some "Draft", some 2, some 1, none, none⟩ rfl).2 (by decide),
   claim_C1.2.2 "t1" c1Ctx "blueprint" true rfl⟩

/-- The updated chain built by `lock_chain` on a successful unlock. -/
def unlockedChain (now : String) (mc : MacroChain) : MacroChain :=
  { mc with
    status := some "Edited",
    version := some (getNatOr mc.version 1 + 1),
    lastUpdatedAt := some now,
    lockedAt := none }

theorem lock_chain_unlock_eq (now : String) (sc : SessionContext)
    (legacy : Option MacroChain) (cid : String) (mc : MacroChain)
    (hmc : lookupA cid sc.macroChains = some mc)
    (hst : mc.status.getD "Draft" = "Locked") :
    LockService.lock_chain now (some sc) legacy cid false =
      .ok { chain := unlockedChain now mc,
            sessionContext := { sc with
              macroChains := setA cid (unlockedChain now mc) sc.macroChains,
              customMacroChain := some (LockService.chainSnapshot (unlockedChain now mc)),
              sceneDetails := (LockService.chainCascade now sc.sceneDetails).1,
              updatedAt := now },
            affectedScenes := (LockService.chainCascade now sc.sceneDetails).2 } := by
  simp [LockService.lock_chain, hmc, hst, unlockedChain]

/-- A session context with a locked chain `ch1` and a single scene detail
`s1` that has no `sceneId` key. -/
def c2Ctx : SessionContext :=
  { sessionId := "sess", blocks := [], customMacroChain := none, locks := [],
    meta := ⟨0, 0, 0, none⟩, version := 1,
    macroChains :=
      [("ch1", ⟨"ch1", none, some "Locked", some 2, none, none, none, none, some "t0"⟩)],
    sceneDetails := [("s1", ⟨none, some "Locked", some 1, some 1, none, none⟩)],
    createdAt := "t0", updatedAt := "t0" }

/-- Claim C2 counterexample: unlocking the chain of `c2Ctx` succeeds, yet the
scene detail `s1` - which is in the session's `sceneDetails` map but has no
`sceneId` key - keeps status `Locked` instead of `NeedsRegen` and is not
listed in `affectedScenes` (the cascade guard
`scene_detail and scene_detail.get('sceneId')` skips it). -/
theorem claim_C2_counterexample :
    (LockService.lock_chain "t1" (some c2Ctx) none "ch1" false).map
      (fun r => (r.affectedScenes,
        (lookupA "s1" r.sessionContext.sceneDetails).map SceneDetail.status)) =
      .ok ([], some (some "Locked")) := rfl

/-- Claim C2 as amended: after a successful unlock of a macro chain, every
scene detail in the session's `sceneDetails` map that carries a non-empty
`sceneId` has status `NeedsRegen`, and the ids of exactly those scenes (in
map order) are returned as `affectedScenes`; scene details without a truthy
`sceneId` are left unchanged. -/
theorem claim_C2 :
    ∀ (now : String) (sc : SessionContext) (legacy : Option MacroChain)
      (cid : String) (mc : MacroChain),
      lookupA cid sc.macroChains = some mc →
      mc.status.getD "Draft" = "Locked" →
      ∃ r, LockService.lock_chain now (some sc) legacy cid false = .ok r ∧
        (∀ (k : String) (d0 : SceneDetail),
          lookupA k sc.sceneDetails = some d0 →
          ∃ d1, lookupA k r.sessionContext.sceneDetails = some d1 ∧
            (LockService.truthySceneId d0 = true → d1.status = some "NeedsRegen") ∧
            (LockService.truthySceneId d0 = false → d1 = d0)) ∧
        r.affectedScenes =
          (sc.sceneDetails.filter fun p => LockService.truthySceneId p.2).map Prod.fst := by
  intro now sc legacy cid mc hmc hst
  refine ⟨_, lock_chain_unlock_eq now sc legacy cid mc hmc hst, ?_, ?_⟩
  · intro k d0 hd0
    refine ⟨if LockService.truthySceneId d0 then LockService.regenSceneDetail now d0
        else d0, ?_, ?_, ?_⟩
    · show lookupA k (LockService.chainCascade now sc.sceneDetails).1 = _
      rw [chainCascade_fst_lookup, hd0]
      rfl
    · intro ht
      simp [ht, LockService.regenSceneDetail]
    · intro ht
      simp [ht]
  · exact chainCascade_snd now sc.sceneDetails

/-- Like `c2Ctx` but with an additional scene detail `sA` that does carry a
`sceneId`. -/
def c2wCtx : SessionContext :=
  { c2Ctx with
    sceneDetails :=
      [("sA", ⟨some "sA", some "Generated", some 0, some 1, none, none⟩),
       ("s1", ⟨none, some "Locked", some 1, some 1, none, none⟩)] }

theorem claim_C2_witness :
    (LockService.lock_chain "t1" (some c2wCtx) none "ch1" false).map
      (fun r => r.affectedScenes) = .ok ["sA"] := by
  obtain ⟨r, hr, _, haff⟩ := claim_C2 "t1" c2wCtx none "ch1"
    ⟨"ch1", none, some "Locked", some 2, none, none, none, none, some "t0"⟩ rfl rfl
  rw [hr]
  simp only [Except.map, haff]
  rfl

/-- The updated scene detail built by `lock_scene` on a successful unlock
(line 194 sets the unlocked scene's own status to `NeedsRegen`). -/
def unlockedScene (now : String) (d : SceneDetail) : SceneDetail :=
  { d with
    status := some "NeedsRegen",
    version := some (getNatOr d.version 1 + 1),
    lastUpdatedAt := some now }

theorem lock_scene_unlock_eq (now : String) (sc : SessionContext) (sid : String)
    (d : SceneDetail) (hd : lookupA sid sc.sceneDetails = some d)
    (hst : d.status.getD "Draft" = "Locked") :
    LockService.lock_scene now sc sid false =
      .ok { sceneDetail := unlockedScene now d,
            affectedScenes := (LockService.sceneCascade (d.sequence.getD 0)
              (setA sid (unlockedScene now d) sc.sceneDetails)).2,
            sessionContext := { sc with
              sceneDetails := (LockService.sceneCascade (d.sequence.getD 0)
                (setA sid (unlockedScene now d) sc.sceneDetails)).1,
              updatedAt := now } } := by
  simp [LockService.lock_scene, hd, hst, unlockedScene]

/-- A session context with a single, locked scene `s1` (and a locked chain
and chain snapshot, to observe that `lock_scene` leaves them alone). -/
def c3Ctx : SessionContext :=
  { sessionId := "sess", blocks := [], locks := [], meta := ⟨0, 0, 0, none⟩,
    version := 1,
    customMacroChain :=
      some ⟨"ch1", some [], some "Locked", some 2, none, none, none, none, some "t0"⟩,
    macroChains :=
      [("ch1", ⟨"ch1", none, some "Locked", some 2, none, none, none, none, some "t0"⟩)],
    sceneDetails := [("s1", ⟨some "s1", some "Locked", some 1, some 1, none, none⟩)],
    createdAt := "t0", updatedAt := "t0" }

/-- Claim C3 counterexample: in `c3Ctx` the scene `s1` has status `Locked`
and (trivially) a sequence lower than or equal to the unlocked scene's own
sequence, so by the claim it should keep its status; but after the successful
unlock of `s1` its status is `NeedsRegen`, not `Locked` (the unlock itself
rewrites the target scene's status, line 194). -/
theorem claim_C3_counterexample :
    (lookupA "s1" c3Ctx.sceneDetails).map SceneDetail.status = some (some "Locked") ∧
    (LockService.lock_scene "t1" c3Ctx "s1" false).map
      (fun r => (lookupA "s1" r.sessionContext.sceneDetails).map SceneDetail.status) =
      .ok (some (some "NeedsRegen")) :=
  ⟨rfl, rfl⟩

/-- Claim C3 as amended: after a successful unlock of a scene, every *other*
scene whose sequence is strictly greater than the unlocked scene's sequence
and whose status was `Locked` has status `NeedsRegen`, every other scene
with lower-or-equal sequence or non-`Locked` status keeps its status (in fact
is unchanged), the unlocked scene itself transitions from `Locked` to
`NeedsRegen`, and the session's macro chain entries (`macroChains` and
`blocks.custom.macroChain`) are left unchanged. -/
theorem claim_C3 :
    ∀ (now : String) (sc : SessionContext) (sid : String) (d : SceneDetail),
      lookupA sid sc.sceneDetails = some d →
      d.status.getD "Draft" = "Locked" →
      ∃ r, LockService.lock_scene now sc sid false = .ok r ∧
        r.sessionContext.macroChains = sc.macroChains ∧
        r.sessionContext.customMacroChain = sc.customMacroChain ∧
        (∃ d1, lookupA sid r.sessionContext.sceneDetails = some d1 ∧
          d1.status = some "NeedsRegen") ∧
        (∀ k, k ≠ sid → ∀ d0, lookupA k sc.sceneDetails = some d0 →
          ∃ d1, lookupA k r.sessionContext.sceneDetails = some d1 ∧
            (d0.sequence.getD 0 > d.sequence.getD 0 ∧ d0.status = some "Locked" →
              d1.status = some "NeedsRegen") ∧
            (¬(d0.sequence.getD 0 > d.sequence.getD 0 ∧ d0.status = some "Locked") →
              d1 = d0)) := by
  intro now sc sid d hd hst
  refine ⟨_, lock_scene_unlock_eq now sc sid d hd hst, rfl, rfl, ?_, ?_⟩
  · refine ⟨if LockService.sceneCascadeHit (d.sequence.getD 0) (unlockedScene now d)
        then { unlockedScene now d with status := some "NeedsRegen" }
        else unlockedScene now d, ?_, ?_⟩
    · show lookupA sid (LockService.sceneCascade (d.sequence.getD 0)
        (setA sid (unlockedScene now d) sc.sceneDetails)).1 = _
      rw [sceneCascade_fst_lookup, lookupA_setA_self]
      rfl
    · by_cases hh : LockService.sceneCascadeHit (d.sequence.getD 0) (unlockedScene now d)
      · simp [hh]
      · simp [hh, unlockedScene]
  · intro k hk d0 hd0
    refine ⟨if LockService.sceneCascadeHit (d.sequence.getD 0) d0
        then { d0 with status := some "NeedsRegen" } else d0, ?_, ?_, ?_⟩
    · show lookupA k (LockService.sceneCascade (d.sequence.getD 0)
        (setA sid (unlockedScene now d) sc.sceneDetails)).1 = _
      rw [sceneCascade_fst_lookup, lookupA_setA_ne hk, hd0]
      rfl
    · intro hcond
      have hh : LockService.sceneCascadeHit (d.sequence.getD 0) d0 = true := by
        simp [LockService.sceneCascadeHit, hcond.1, hcond.2]
      simp [hh]
    · intro hcond
      have hh : LockService.sceneCascadeHit (d.sequence.getD 0) d0 = false := by
        simp only [LockService.sceneCascadeHit, Bool.and_eq_false_iff]
        by_cases hseq : d0.sequence.getD 0 > d.sequence.getD 0
        · right
          have : d0.status ≠ some "Locked" := fun hs => hcond ⟨hseq, hs⟩
          simpa using this
        · left
          simpa using hseq
      simp [hh]

/-- A context for the C3 witness: the locked scene `s1` (sequence 1), a
later locked scene `s2` (sequence 5), a later draft scene `s3` (sequence 7)
and an earlier locked scene `s0` (sequence 0). -/
def c3wCtx : SessionContext :=
  { c3Ctx with
    sceneDetails :=
      [("s1", ⟨some "s1", some "Locked", some 1, some 1, none, none⟩),
       ("s2", ⟨some "s2", some "Locked", some 5, some 1, none, none⟩),
       ("s3", ⟨some "s3", some "Draft", some 7, some 1, none, none⟩),
       ("s0", ⟨some "s0", some "Locked", some 0, some 1, none, none⟩)] }

theorem claim_C3_witness :
    (LockService.lock_scene "t1" c3wCtx "s1" false).map
      (fun r => ((lookupA "s2" r.sessionContext.sceneDetails).map SceneDetail.status,
        (lookupA "s3" r.sessionContext.sceneDetails).map SceneDetail.status,
        (lookupA "s0" r.sessionContext.sceneDetails).map SceneDetail.status,
        r.sessionContext.macroChains = c3wCtx.macroChains)) =
      .ok (some (some "NeedsRegen"), some (some "Draft"), some (some "Locked"), True) := by
  obtain ⟨r, hr, hmc, _, _, hrest⟩ := claim_C3 "t1" c3wCtx "s1"
    ⟨some "s1", some "Locked", some 1, some 1, none, none⟩ rfl rfl
  obtain ⟨d2, hd2, hd2r, _⟩ := hrest "s2" (by decide)
    ⟨some "s2", some "Locked", some 5, some 1, none, none⟩ rfl
  obtain ⟨d3, hd3, _, hd3k⟩ := hrest "s3" (by decide)
    ⟨some "s3", some "Draft", some 7, some 1, none, none⟩ rfl
  obtain ⟨d0, hd0, _, hd0k⟩ := hrest "s0" (by decide)
    ⟨some "s0", some "Locked", some 0, some 1, none, none⟩ rfl
  rw [hr]
  have h2 := hd2r (by constructor <;> decide)
  rw [hd3k (by decide)] at hd3
  rw [hd0k (by decide)] at hd0
  simp [Except.map, hmc, hd2, hd3, hd0, h2]

/-- Whether an optional value is a Python list (`isinstance(existing, list)`
where `existing` may be `None`). -/
def optIsList : Option Value → Bool
  | some (.list _) => true
  | _ => false

theorem orElseEmptyList_list (xs : List Value) :
    orElseEmptyList (.list xs) = .list xs := by
  cases xs <;> rfl

theorem wsField_of_lookups {key : String} {a b : List Value}
    {ek nk : List (String × Value)} (ha : lookupA key ek = some (.list a))
    (hb : lookupA key nk = some (.list b)) :
    wsField ek nk key = .ok (.list (a ++ b)) := by
  simp [wsField, objGetD, ha, hb, orElseEmptyList_list, pyListConcat]

theorem existing_hooks_nil {e : Option Value} (he : optIsList e = false) :
    (match e with | some (.list xs) => xs | _ => ([] : List Value)) = [] := by
  match e with
  | none => rfl
  | some (.list xs) => simp [optIsList] at he
  | some .null | some (.bool _) | some (.int _) | some (.str _) | some (.obj _) => rfl

/-- Claim C5: for `player_hooks` and `story_facts` the merge appends the new
data to the existing list (a non-list new value is appended as a single
element, a non-list existing value is treated as the empty list); for
`world_seeds` the result's `factions`, `locations` and `constraints` fields
each equal the existing field's list concatenated with the new data's list
for that field. -/
theorem claim_C5 (el nl : List Value) (n : Value) (e : Option Value)
    (ekvs nkvs : List (String × Value)) (fe fn le ln ce cn : List Value)
    (hn : n.isList = false) (he : optIsList e = false)
    (hef : lookupA "factions" ekvs = some (.list fe))
    (hel : lookupA "locations" ekvs = some (.list le))
    (hec : lookupA "constraints" ekvs = some (.list ce))
    (hnf : lookupA "factions" nkvs = some (.list fn))
    (hnl : lookupA "locations" nkvs = some (.list ln))
    (hnc : lookupA "constraints" nkvs = some (.list cn)) :
    merge_context_data (some (.list el)) (.list nl) "player_hooks" =
      .ok (.list (el ++ nl)) ∧
    merge_context_data (some (.list el)) n "player_hooks" =
      .ok (.list (el ++ [n])) ∧
    merge_context_data e (.list nl) "player_hooks" = .ok (.list nl) ∧
    merge_context_data (some (.list el)) (.list nl) "story_facts" =
      .ok (.list (el ++ nl)) ∧
    merge_context_data (some (.list el)) n "story_facts" =
      .ok (.list (el ++ [n])) ∧
    merge_context_data e (.list nl) "story_facts" = .ok (.list nl) ∧
    merge_context_data (some (.obj ekvs)) (.obj nkvs) "world_seeds" =
      .ok (.obj [("factions", .list (fe ++ fn)), ("locations", .list (le ++ ln)),
        ("constraints", .list (ce ++ cn))]) := by
  refine ⟨rfl, ?_, ?_, rfl, ?_, ?_, ?_⟩
  · cases n <;> first | rfl | simp [Value.isList] at hn
  · cases e with
    | none => rfl
    | some v => cases v <;> first | rfl | simp [optIsList] at he
  · cases n <;> first | rfl | simp [Value.isList] at hn
  · cases e with
    | none => rfl
    | some v => cases v <;> first | rfl | simp [optIsList] at he
  · show (do
      let f ← wsField ekvs nkvs "factions"
      let l ← wsField ekvs nkvs "locations"
      let c ← wsField ekvs nkvs "constraints"
      Except.ok (Value.obj [("factions", f), ("locations", l), ("constraints", c)])) = _
    rw [wsField_of_lookups hef hnf, wsField_of_lookups hel hnl, wsField_of_lookups hec hnc]
    rfl

theorem claim_C5_witness :
    merge_context_data (some (.list [.str "a"])) (.list [.str "b"]) "player_hooks" =
      .ok (.list [.str "a", .str "b"]) ∧
    merge_context_data (some (.list [.str "a"])) (.str "x") "player_hooks" =
      .ok (.list [.str "a", .str "x"]) ∧
    merge_context_data (some (.str "notalist")) (.list [.str "b"]) "player_hooks" =
      .ok (.list [.str "b"]) ∧
    merge_context_data (some (.list [.str "a"])) (.list [.str "b"]) "story_facts" =
      .ok (.list [.str "a", .str "b"]) ∧
    merge_context_data (some (.list [.str "a"])) (.str "x") "story_facts" =
      .ok (.list [.str "a", .str "x"]) ∧
    merge_context_data (some (.str "notalist")) (.list [.str "b"]) "story_facts" =
      .ok (.list [.str "b"]) ∧
    merge_context_data
      (some (.obj [("factions", .list [.str "f1"]), ("locations", .list []),
        ("constraints", .list [.str "c1"])]))
      (.obj [("factions", .list [.str "f2"]), ("locations", .list [.str "l2"]),
        ("constraints", .list [])]) "world_seeds" =
      .ok (.obj [("factions", .list [.str "f1", .str "f2"]),
        ("locations", .list [.str "l2"]),
        ("constraints", .list [.str "c1"])]) :=
  claim_C5 [.str "a"] [.str "b"] (.str "x") (some (.str "notalist"))
    [("factions", .list [.str "f1"]), ("locations", .list []),
      ("constraints", .list [.str "c1"])]
    [("factions", .list [.str "f2"]), ("locations", .list [.str "l2"]),
      ("constraints", .list [])]
    [.str "f1"] [.str "f2"] [] [.str "l2"] [.str "c1"] []
    rfl rfl rfl rfl rfl rfl rfl rfl

/-- Claim C6: a successful `lock_context_block(session_id, block_type, True)`
sets `locks[block_type] = True`, increments the session context's version by
exactly 1, and increments `meta.backgroundV` by 1 exactly when the block type
is `background` and `meta.charactersV` by 1 exactly when it is `characters`;
a successful unlock flips the lock flag and bumps the version but leaves the
whole meta record (hence every per-type counter) unchanged. -/
theorem claim_C6 :
    ∀ (now : String) (sc : SessionContext) (bt : String),
      LockService.VALID_BLOCK_TYPES.contains bt = true →
      (∃ c', LockService.lock_context_block now sc bt true = .ok c' ∧
        lookupA bt c'.locks = some true ∧
        c'.version = sc.version + 1 ∧
        c'.meta.backgroundV = sc.meta.backgroundV + (if bt = "background" then 1 else 0) ∧
        c'.meta.charactersV = sc.meta.charactersV + (if bt = "characters" then 1 else 0)) ∧
      (∃ c'', LockService.lock_context_block now sc bt false = .ok c'' ∧
        lookupA bt c''.locks = some false ∧
        c''.version = sc.version + 1 ∧ c''.meta = sc.meta) := by
  intro now sc bt hv
  have hmem : bt ∈ LockService.VALID_BLOCK_TYPES := by simpa using hv
  constructor
  · by_cases hb : bt = "background"
    · subst hb
      refine ⟨({ sc with
          locks := setA "background" true sc.locks
          version := sc.version + 1
          updatedAt := now
          meta := { sc.meta with backgroundV := sc.meta.backgroundV + 1 } }),
        rfl, lookupA_setA_self _ _ _, rfl, by simp, by simp⟩
    · by_cases hc : bt = "characters"
      · subst hc
        refine ⟨({ sc with
            locks := setA "characters" true sc.locks
            version := sc.version + 1
            updatedAt := now
            meta := { sc.meta with charactersV := sc.meta.charactersV + 1 } }),
          rfl, lookupA_setA_self _ _ _, rfl, by simp, by simp⟩
      · refine ⟨({ sc with
            locks := setA bt true sc.locks
            version := sc.version + 1
            updatedAt := now }), ?_,
          lookupA_setA_self _ _ _, rfl, by simp [hb], by simp [hc]⟩
        simp [LockService.lock_context_block, hmem, hb, hc]
  · refine ⟨({ sc with
        locks := setA bt false sc.locks
        version := sc.version + 1
        updatedAt := now }), ?_,
      lookupA_setA_self _ _ _, rfl, rfl⟩
    simp [LockService.lock_context_block, hmem]

/-- A session context used to instantiate the C6 and C8 theorems: version 7,
`backgroundV` 2, `charactersV` 5, a locked chain `ch1` and a locked scene
`s1`. -/
def c6Ctx : SessionContext :=
  { sessionId := "sess", blocks := [], customMacroChain := none, locks := [],
    meta := ⟨2, 5, 0, none⟩, version := 7,
    macroChains :=
      [("ch1", ⟨"ch1", none, some "Locked", some 2, none, none, none, none, some "t0"⟩)],
    sceneDetails := [("s1", ⟨some "s1", some "Locked", some 1, some 1, none, none⟩)],
    createdAt := "t0", updatedAt := "t0" }

theorem claim_C6_witness :
    (LockService.lock_context_block "t1" c6Ctx "background" true).map
      (fun c => (lookupA "background" c.locks, c.version,
        c.meta.backgroundV, c.meta.charactersV)) = .ok (some true, 8, 3, 5) ∧
    (LockService.lock_context_block "t1" c6Ctx "background" false).map
      (fun c => (lookupA "background" c.locks, c.version, c.meta)) =
      .ok (some false, 8, ⟨2, 5, 0, none⟩) := by
  obtain ⟨⟨c', hc', h1, h2, h3, h4⟩, ⟨c'', hc'', h5, h6, h7⟩⟩ :=
    claim_C6 "t1" c6Ctx "background" rfl
  constructor
  · rw [hc']
    simp only [Except.map, h1, h2, h3, h4]
    norm_num [c6Ctx]
    decide
  · rw [hc'']
    simp only [Except.map, h5, h6, h7]
    norm_num [c6Ctx]

/-- Claim C7: the single save path `save_session_context` takes the advisory
per-session mutex before writing.  If the mutex is held at the initial check
and at every one of the (at most 10) 100ms polls, the writer raises the
`Session context save timeout` error and nothing is written; as soon as some
poll within that fixed window finds the mutex free, the context (with a
refreshed `updatedAt`) is written under the session id. -/
theorem claim_C7 :
    ∀ (held : Nat → Bool) (now sid : String) (ctx : SessionContext)
      (cs : List (String × SessionContext)),
      ((∀ k, k ≤ 10 → held k = true) →
        StorageService.save_session_context held now sid ctx cs =
          .error ("Session context save timeout for " ++ sid)) ∧
      (∀ j, j ≤ 10 → held j = false →
        StorageService.save_session_context held now sid ctx cs =
          .ok (setA sid { ctx with updatedAt := now } cs)) := by
  intro held now sid ctx cs
  constructor
  · intro hall
    have h0 : held 0 = true := hall 0 (by omega)
    have hle := waitLoop_le held 10 0
    have hres : held (StorageService.waitLoop held 0 10) = true := hall _ (by omega)
    simp [StorageService.save_session_context, h0, hres]
  · intro j hj hjf
    by_cases h0 : held 0 = true
    · have hres : held (StorageService.waitLoop held 0 10) = false := by
        by_contra hcon
        rw [Bool.not_eq_false] at hcon
        have hk := waitLoop_all_held held 10 0 hcon j (by omega) (by omega)
        rw [hk] at hjf
        cases hjf
      simp [StorageService.save_session_context, h0, hres]
    · simp only [Bool.not_eq_true] at h0
      simp [StorageService.save_session_context, h0]

theorem claim_C7_witness :
    StorageService.save_session_context (fun _ => true) "t1" "sess" c6Ctx [] =
      .error "Session context save timeout for sess" ∧
    StorageService.save_session_context (fun _ => false) "t1" "sess" c6Ctx [] =
      .ok [("sess", { c6Ctx with updatedAt := "t1" })] :=
  ⟨(claim_C7 (fun _ => true) "t1" "sess" c6Ctx []).1 (fun _ _ => rfl),
   (claim_C7 (fun _ => false) "t1" "sess" c6Ctx []).2 0 (by omega) rfl⟩

theorem exceptBind_ok {ε α β : Type} {x : Except ε α} {f : α → Except ε β} {b : β}
    (h : (x >>= f) = .ok b) : ∃ a, x = .ok a ∧ f a = .ok b := by
  cases x with
  | error e => simp [Bind.bind, Except.bind] at h
  | ok a => exact ⟨a, rfl, by simpa [Bind.bind, Except.bind] using h⟩

/-- Claim C8 counterexample: the clear endpoint resets the session version
counter to 0; on `c6Ctx`, whose version is 7, this decreases the version,
so the counter is not monotonic across all session-context operations. -/
theorem claim_C8_counterexample :
    c6Ctx.version = 7 ∧
    (ContextRouter.clear_context "t1" "sess" c6Ctx).map SessionContext.version =
      .ok 0 :=
  ⟨rfl, rfl⟩

/-- Claim C8 as amended: every successful context append and every successful
`lock_context_block` call increments the session version by exactly 1, and
`lock_chain` and `lock_scene` leave it unchanged; but the clear endpoint
(`POST /api/context/clear`) resets the version to 0, which decreases it
whenever it was positive - it is the only context operation that does. -/
theorem claim_C8 :
    ∀ (now sid bt : String) (data : Value) (sc : SessionContext) (locked : Bool)
      (legacy : Option MacroChain) (cid scid : String),
      (∀ c', ContextRouter.append_context now sid bt data sc = .ok c' →
        c'.version = sc.version + 1) ∧
      (∀ c', LockService.lock_context_block now sc bt locked = .ok c' →
        c'.version = sc.version + 1) ∧
      (∀ r, LockService.lock_chain now (some sc) legacy cid locked = .ok r →
        r.sessionContext.version = sc.version) ∧
      (∀ r, LockService.lock_scene now sc scid locked = .ok r →
        r.sessionContext.version = sc.version) ∧
      (∀ c', ContextRouter.clear_context now sid sc = .ok c' → c'.version = 0) := by
  intro now sid bt data sc locked legacy cid scid
  refine ⟨?_, ?_, ?_, ?_, ?_⟩
  · intro c' h
    unfold ContextRouter.append_context at h
    split at h
    · exact absurd h (by simp)
    · split at h
      · exact absurd h (by simp)
      · obtain ⟨m, _, hrest⟩ := exceptBind_ok h
        simp only [Except.ok.injEq] at hrest
        subst hrest
        repeat' split
        all_goals rfl
  · intro c' h
    unfold LockService.lock_context_block at h
    split at h
    · exact absurd h (by simp)
    · simp only [Except.ok.injEq] at h
      subst h
      repeat' split
      all_goals rfl
  · intro r h
    cases hmc : lookupA cid sc.macroChains with
    | some mc =>
      simp only [LockService.lock_chain, hmc] at h
      repeat' split at h
      all_goals first
        | (simp only [Except.ok.injEq] at h; subst h; rfl)
        | simp_all
    | none =>
      cases hcmc : sc.customMacroChain with
      | some cmc =>
        cases hcid : cmc.chainId == cid with
        | true =>
          simp [LockService.lock_chain, hmc, hcmc, hcid] at h
          repeat' split at h
          all_goals first
            | (simp only [Except.ok.injEq] at h; subst h; rfl)
            | simp_all
        | false =>
          cases legacy with
          | some lc =>
            simp [LockService.lock_chain, hmc, hcmc, hcid] at h
            repeat' split at h
            all_goals first
              | (simp only [Except.ok.injEq] at h; subst h; rfl)
              | simp_all
          | none => simp [LockService.lock_chain, hmc, hcmc, hcid] at h
      | none =>
        cases legacy with
        | some lc =>
          simp [LockService.lock_chain, hmc, hcmc] at h
          repeat' split at h
          all_goals first
            | (simp only [Except.ok.injEq] at h; subst h; rfl)
            | simp_all
        | none => simp [LockService.lock_chain, hmc, hcmc] at h
  · intro r h
    simp only [LockService.lock_scene] at h
    repeat' split at h
    all_goals first
      | (simp only [Except.ok.injEq] at h; subst h; rfl)
      | simp_all
  · intro c' h
    unfold ContextRouter.clear_context at h
    split at h
    · exact absurd h (by simp)
    · simp only [Except.ok.injEq] at h
      subst h
      rfl

def c8AppendRes : SessionContext :=
  match ContextRouter.append_context "t1" "sess" "blueprint" (.int 1) c6Ctx with
  | .ok c => c
  | .error _ => c6Ctx

def c8LockBRes : SessionContext :=
  match LockService.lock_context_block "t1" c6Ctx "blueprint" false with
  | .ok c => c
  | .error _ => c6Ctx

def c8ChainRes : LockService.LockChainResult :=
  match LockService.lock_chain "t1" (some c6Ctx) none "ch1" false with
  | .ok r => r
  | .error _ => ⟨⟨"ch1", none, none, none, none, none, none, none, none⟩, c6Ctx, []⟩

def c8SceneRes : LockService.LockSceneResult :=
  match LockService.lock_scene "t1" c6Ctx "s1" false with
  | .ok r => r
  | .error _ => ⟨⟨none, none, none, none, none, none⟩, [], c6Ctx⟩

def c8ClearRes : SessionContext :=
  match ContextRouter.clear_context "t1" "sess" c6Ctx with
  | .ok c => c
  | .error _ => c6Ctx

theorem claim_C8_witness :
    c8AppendRes.version = c6Ctx.version + 1 ∧
    c8LockBRes.version = c6Ctx.version + 1 ∧
    c8ChainRes.sessionContext.version = c6Ctx.version ∧
    c8SceneRes.sessionContext.version = c6Ctx.version ∧
    c8ClearRes.version = 0 :=
  ⟨(claim_C8 "t1" "sess" "blueprint" (.int 1) c6Ctx false none "ch1" "s1").1
      c8AppendRes rfl,
   (claim_C8 "t1" "sess" "blueprint" (.int 1) c6Ctx false none "ch1" "s1").2.1
      c8LockBRes rfl,
   (claim_C8 "t1" "sess" "blueprint" (.int 1) c6Ctx false none "ch1" "s1").2.2.1
      c8ChainRes rfl,
   (claim_C8 "t1" "sess" "blueprint" (.int 1) c6Ctx false none "ch1" "s1").2.2.2.1
      c8SceneRes rfl,
   (claim_C8 "t1" "sess" "blueprint" (.int 1) c6Ctx false none "ch1" "s1").2.2.2.2
      c8ClearRes rfl⟩

theorem claim_C10_witness :
    (summarize_content "Hello world. This is a test. And a third sentence.".toList
      20).length ≤ 20 ∧
    ("Hello world. This is a test. And a third sentence.".toList.length ≤ 20 →
      summarize_content "Hello world. This is a test. And a third sentence.".toList 20 =
        "Hello world. This is a test. And a third sentence.".toList) :=
  claim_C10 "Hello world. This is a test. And a third sentence.".toList 20 (by decide)

end DnDbug
